import Mathlib

/-!
Shallow embedding of `src/clickhouse_backup/clickhouse/client.py`
(repository Hedius/ClickHouseBackup).

The module defines a `Client` holding a backup-target configuration, validates
that configuration at construction time (`__init__`), builds destination
clauses (`_get_backup_path`), assembles `BACKUP`/`RESTORE` statements
(`_backup_command`, wrapped by `backup` and `restore`), and reads backup
status rows (`get_backup_status`).

Python `Optional` values are `Option`; Python truthiness of optional strings
(`None` and `''` are falsy) and of optional lists (`None` and `[]` are falsy)
is made explicit.  Raised exceptions become `Except PyError`.  The filesystem
(consulted only by `os.path.isdir`) is a list of existing directory paths.
The database session's `execute` is abstract; what the builder would submit
is exposed as an explicit list of statements, empty when an error is raised
before the single `execute` call at the end of `_backup_command`.
-/

namespace ClickHouseBackup

/-- Modelled from the spec: `Backup` (imported from the absent module
`clickhouse_backup.utils.datatypes`) identifies a backup artifact by a
relative path string. -/
structure Backup where
  path : String
deriving DecidableEq, Repr

/-- Modelled from the spec: `FullBackup` is a `Backup` additionally usable
as a base-backup reference for incremental backups. -/
abbrev FullBackup := Backup

/-- Exceptions raised by `client.py`: `ValueError` and `FileNotFoundError`. -/
inductive PyError
  | valueError (msg : String)
  | fileNotFoundError (msg : String)
deriving DecidableEq, Repr

/-- The `BackupTarget` enum of `client.py`: members `File`, `Disk`, `S3`. -/
inductive BackupTarget
  | file
  | disk
  | s3
deriving DecidableEq, Repr

/-- A runtime backup-target value.  Python does not enforce the annotation,
so the stored value is either an enum member or some other value, carried
here by its string representation (used by the `Invalid backup target: ...`
error message of `_get_backup_path`). -/
inductive TargetValue
  | member (t : BackupTarget)
  | other (text : String)
deriving DecidableEq, Repr

/-- Python truthiness of an `Optional[str]`: `None` and `''` are falsy. -/
def truthyStr : Option String → Bool
  | none => false
  | some s => s != ""

/-- Python `str()` of an `Optional[str]` as interpolated by an f-string:
`None` prints as `"None"`. -/
def pyStr : Option String → String
  | none => "None"
  | some s => s

/-- State of a constructed `Client`.  `connected` records that
`self._client = self._connect()` ran. -/
structure Client where
  host : String
  port : String
  user : String
  password : String
  connected : Bool
  backup_target : TargetValue
  backup_dir : Option String
  disk : Option String
  s3_endpoint : Option String
  s3_access_key_id : Option String
  s3_secret_access_key : Option String
deriving DecidableEq, Repr

/-- `Client.__init__`: validate the parameters required by the selected
backup target, then connect and store the configuration.  `fs` is the set of
directories that exist on the local filesystem (`os.path.isdir`).  A `Path`
argument is truthy whenever present, so `not backup_dir` is an is-`None`
test, while `disk` and the S3 parameters are strings whose empty value is
also falsy.  The `match` in the source has no default case, so a target
value outside the enum passes validation unchecked. -/
def clientInit (fs : List String) (host port user password : String)
    (backup_target : TargetValue) (backup_dir : Option String)
    (disk s3_endpoint s3_access_key_id s3_secret_access_key : Option String) :
    Except PyError Client :=
  let build : Except PyError Client := .ok
    { host := host, port := port, user := user, password := password,
      connected := true,
      backup_target := backup_target, backup_dir := backup_dir, disk := disk,
      s3_endpoint := s3_endpoint, s3_access_key_id := s3_access_key_id,
      s3_secret_access_key := s3_secret_access_key }
  match backup_target with
  | .member .file =>
      match backup_dir with
      | none =>
          .error (.valueError "backup_dir must be provided when using File backup target")
      | some d =>
          if fs.contains d then build
          else .error (.fileNotFoundError ("backup_dir " ++ d ++ " does not exist!"))
  | .member .disk =>
      if truthyStr disk then build
      else .error (.valueError "disk must be provided when using Disk backup target")
  | .member .s3 =>
      if !truthyStr s3_endpoint then
        .error (.valueError "s3_endpoint must be provided when using S3 backup target")
      else if !truthyStr s3_access_key_id then
        .error (.valueError "s3_access_key_id must be provided when using S3 backup target")
      else if !truthyStr s3_secret_access_key then
        .error (.valueError "s3_secret_access_key must be provided when using S3 backup target")
      else build
  | .other _ => build

/-- Number of connections `__init__` opens: `self._connect()` runs exactly
once, after the validation `match`, so a validation error opens none. -/
def clientInitConnections (fs : List String) (host port user password : String)
    (backup_target : TargetValue) (backup_dir : Option String)
    (disk s3_endpoint s3_access_key_id s3_secret_access_key : Option String) : Nat :=
  match clientInit fs host port user password backup_target backup_dir
      disk s3_endpoint s3_access_key_id s3_secret_access_key with
  | .ok _ => 1
  | .error _ => 0

/-- `Client._get_backup_path`: the destination clause for the configured
backup target and a relative path, by direct f-string interpolation
(`\x27` is the single-quote character). -/
def getBackupPath (c : Client) (file_path : String) : Except PyError String :=
  match c.backup_target with
  | .member .file =>
      .ok ("File(\x27" ++ pyStr c.backup_dir ++ "/" ++ file_path ++ "\x27)")
  | .member .disk =>
      .ok ("Disk(\x27" ++ pyStr c.disk ++ "\x27, \x27" ++ file_path ++ "\x27)")
  | .member .s3 =>
      .ok ("S3(\x27" ++ pyStr c.s3_endpoint ++ "/" ++ file_path ++ "\x27, \x27" ++
        pyStr c.s3_access_key_id ++ "\x27, \x27" ++ pyStr c.s3_secret_access_key ++ "\x27)")
  | .other r => .error (.valueError ("Invalid backup target: " ++ r))

/-- The argument tuple of `_backup_command` beyond the operation flag:
the primary backup, the five optional single-object parameters, the optional
ignored-databases list and the optional base backup. -/
structure BackupArgs where
  backup : Backup
  table : Option String
  dictionary : Option String
  database : Option String
  temporary_table : Option String
  view : Option String
  ignored_databases : Option (List String)
  base_backup : Option FullBackup
deriving DecidableEq, Repr

/-- Line 137 of the source, `ignored_databases = ignored_databases or [...]`:
Python `or` replaces every falsy left operand, so both `None` and the empty
list become the default list. -/
def effectiveIgnored : Option (List String) → List String
  | none => ["system", "INFORMATION_SCHEMA", "information_schema"]
  | some l =>
      if l = [] then ["system", "INFORMATION_SCHEMA", "information_schema"] else l

/-- The `if/elif` chain of `_backup_command` appending the single object
clause, in source order: table, dictionary, database, temporary table, view,
else the `ALL EXCEPT DATABASES` clause guarded by the emptiness check of
lines 151-153. -/
def objectClause (table dictionary database temporary_table view : Option String)
    (ignored_databases : List String) : Except PyError String :=
  if truthyStr table then .ok ("TABLE " ++ pyStr table ++ " ")
  else if truthyStr dictionary then .ok ("DICTIONARY " ++ pyStr dictionary ++ " ")
  else if truthyStr database then .ok ("DATABASE " ++ pyStr database ++ " ")
  else if truthyStr temporary_table then
    .ok ("TEMPORARY TABLE " ++ pyStr temporary_table ++ " ")
  else if truthyStr view then .ok ("VIEW " ++ pyStr view ++ " ")
  else if ignored_databases.length = 0 then
    .error (.valueError "ignored_databases must contain at least one database e.g. system.")
  else .ok ("ALL EXCEPT DATABASES " ++ String.intercalate ", " ignored_databases ++ " ")

/-- `Client._backup_command` up to the single `self._client.execute(query)`
call: the fully assembled statement, or the error raised while assembling it.
The keyword is `BACKUP`/`RESTORE` by `is_backup`; the destination clause
follows `TO`/`FROM`; a supplied base backup appends a
`SETTINGS base_backup = ...` clause built by `_get_backup_path` as well. -/
def backupCommandQuery (c : Client) (args : BackupArgs) (is_backup : Bool) :
    Except PyError String :=
  let ignored := effectiveIgnored args.ignored_databases
  let kw := if is_backup then "BACKUP " else "RESTORE "
  match objectClause args.table args.dictionary args.database
      args.temporary_table args.view ignored with
  | .error e => .error e
  | .ok clause =>
      match getBackupPath c args.backup.path with
      | .error e => .error e
      | .ok dest =>
          let base := kw ++ clause ++ (if is_backup then "TO" else "FROM") ++
            " " ++ dest ++ " "
          match args.base_backup with
          | none => .ok base
          | some bb =>
              match getBackupPath c bb.path with
              | .error e => .error e
              | .ok bdest => .ok (base ++ "SETTINGS base_backup = " ++ bdest ++ " ")

/-- The statements `_backup_command` submits through the session: `execute`
is called exactly once, with the finished query, after every point at which
an error can be raised, so an error means nothing is submitted. -/
def backupCommandSubmitted (c : Client) (args : BackupArgs) (is_backup : Bool) :
    List String :=
  match backupCommandQuery c args is_backup with
  | .ok q => [q]
  | .error _ => []

/-- `Client.backup`: forwards to `_backup_command` with `is_backup = True`. -/
def backupStatement (c : Client) (args : BackupArgs) : Except PyError String :=
  backupCommandQuery c args true

/-- `Client.restore`: forwards to `_backup_command` with `is_backup = False`. -/
def restoreStatement (c : Client) (args : BackupArgs) : Except PyError String :=
  backupCommandQuery c args false

/-- `Client.get_backup_status`: one `execute` of the fixed query over the
system backup-status table, its result returned unchanged. -/
def get_backup_status {Row : Type} (execute : String → Row) : Row :=
  execute "SELECT * FROM `system`.backups"

/-- A concrete File-target client used to evaluate the model on concrete
inputs. -/
def fileClient : Client :=
  { host := "localhost", port := "9000", user := "default", password := "",
    connected := true,
    backup_target := .member .file, backup_dir := some "/backups",
    disk := none, s3_endpoint := none, s3_access_key_id := none,
    s3_secret_access_key := none }

/-- A concrete Disk-target client used to evaluate the model on concrete
inputs. -/
def diskClient : Client :=
  { host := "localhost", port := "9000", user := "default", password := "",
    connected := true,
    backup_target := .member .disk, backup_dir := none,
    disk := some "backup_disk", s3_endpoint := none, s3_access_key_id := none,
    s3_secret_access_key := none }

/-- A concrete S3-target client used to evaluate the model on concrete
inputs. -/
def s3Client : Client :=
  { host := "localhost", port := "9000", user := "default", password := "",
    connected := true,
    backup_target := .member .s3, backup_dir := none,
    disk := none, s3_endpoint := some "https://s3.example.com/bucket",
    s3_access_key_id := some "AK", s3_secret_access_key := some "SK" }

/-- A concrete client whose stored backup-target value is outside the enum
(Python does not prevent this), used to evaluate the invalid-target path. -/
def badTargetClient : Client :=
  { host := "localhost", port := "9000", user := "default", password := "",
    connected := true,
    backup_target := .other "None", backup_dir := none,
    disk := none, s3_endpoint := none, s3_access_key_id := none,
    s3_secret_access_key := none }

/-- Helper: merging two adjacent literal pieces of an appended string. -/
theorem append_lit (a b c : String) (h : a ++ b = c) (x : String) :
    a ++ (b ++ x) = c ++ x := by
  rw [← String.append_assoc, h]

/-- Helper: for a client whose stored target is one of the three enum
members, `_get_backup_path` always succeeds. -/
theorem getBackupPath_member (c : Client) (t : BackupTarget)
    (hc : c.backup_target = .member t) (p : String) :
    ∃ s, getBackupPath c p = .ok s := by
  cases t <;> simp [getBackupPath, hc]

/-- Helper: the list produced by line 137 of the source is never empty, so
the emptiness check of lines 151-153 can never fire. -/
theorem effectiveIgnored_ne_nil (o : Option (List String)) :
    effectiveIgnored o ≠ [] := by
  cases o with
  | none => simp [effectiveIgnored]
  | some l =>
      by_cases h : l = [] <;> simp [effectiveIgnored, h]

/-- C1: the claim says a backup call with an explicit empty ignored-databases
list and no single-object parameter fails before any statement is submitted.
The code does the opposite: `ignored_databases or [...]` on line 137 replaces
the empty list by the default list (Python `or` treats `[]` as falsy), the
emptiness check of lines 151-153 therefore never fires, and the call submits a
statement using the default exclusions.  Evaluated here on a File-target
client with an explicit empty list: exactly one statement is submitted. -/
theorem c1_empty_ignored_list_still_submits :
    backupCommandSubmitted fileClient
        ⟨⟨"b1"⟩, none, none, none, none, none, some [], none⟩ true =
      ["BACKUP ALL EXCEPT DATABASES system, INFORMATION_SCHEMA, information_schema TO File(\x27/backups/b1\x27) "] := by
  rfl

/-- C2: exactly one object clause is appended, chosen in priority order
table → dictionary → database → temporary table → view → ALL EXCEPT
DATABASES; supplying several single-object parameters raises no error, and
the first truthy one in that order determines the clause (for `table`, the
result coincides with the call in which all later parameters are dropped). -/
theorem c2_object_clause_priority (c : Client) (t : BackupTarget)
    (hc : c.backup_target = .member t) (args : BackupArgs) (ib : Bool) :
    (truthyStr args.table = true →
      backupCommandQuery c args ib =
        backupCommandQuery c ⟨args.backup, args.table, none, none, none, none,
          args.ignored_databases, args.base_backup⟩ ib ∧
      ∃ rest, backupCommandQuery c args ib =
        .ok ((if ib then "BACKUP " else "RESTORE ") ++
          ("TABLE " ++ (pyStr args.table ++ (" " ++ rest))))) ∧
    (truthyStr args.table = false → truthyStr args.dictionary = true →
      ∃ rest, backupCommandQuery c args ib =
        .ok ((if ib then "BACKUP " else "RESTORE ") ++
          ("DICTIONARY " ++ (pyStr args.dictionary ++ (" " ++ rest))))) ∧
    (truthyStr args.table = false → truthyStr args.dictionary = false →
     truthyStr args.database = true →
      ∃ rest, backupCommandQuery c args ib =
        .ok ((if ib then "BACKUP " else "RESTORE ") ++
          ("DATABASE " ++ (pyStr args.database ++ (" " ++ rest))))) ∧
    (truthyStr args.table = false → truthyStr args.dictionary = false →
     truthyStr args.database = false → truthyStr args.temporary_table = true →
      ∃ rest, backupCommandQuery c args ib =
        .ok ((if ib then "BACKUP " else "RESTORE ") ++
          ("TEMPORARY TABLE " ++ (pyStr args.temporary_table ++ (" " ++ rest))))) ∧
    (truthyStr args.table = false → truthyStr args.dictionary = false →
     truthyStr args.database = false → truthyStr args.temporary_table = false →
     truthyStr args.view = true →
      ∃ rest, backupCommandQuery c args ib =
        .ok ((if ib then "BACKUP " else "RESTORE ") ++
          ("VIEW " ++ (pyStr args.view ++ (" " ++ rest))))) ∧
    (truthyStr args.table = false → truthyStr args.dictionary = false →
     truthyStr args.database = false → truthyStr args.temporary_table = false →
     truthyStr args.view = false →
      ∃ rest, backupCommandQuery c args ib =
        .ok ((if ib then "BACKUP " else "RESTORE ") ++
          ("ALL EXCEPT DATABASES " ++
            (String.intercalate ", " (effectiveIgnored args.ignored_databases) ++
              (" " ++ rest))))) := by
  obtain ⟨b, tbl, dic, db, tt, vw, ign, bb⟩ := args
  obtain ⟨dest, hdest⟩ := getBackupPath_member c t hc b.path
  refine ⟨?_, ?_, ?_, ?_, ?_, ?_⟩
  · intro h1
    constructor
    · simp [backupCommandQuery, objectClause, h1]
    · cases bb with
      | none =>
          refine ⟨(if ib then "TO" else "FROM") ++ " " ++ dest ++ " ", ?_⟩
          simp [backupCommandQuery, objectClause, h1, hdest, String.append_assoc]
      | some x =>
          obtain ⟨bdest, hbdest⟩ := getBackupPath_member c t hc x.path
          refine ⟨(if ib then "TO" else "FROM") ++ " " ++ dest ++ " " ++
            "SETTINGS base_backup = " ++ bdest ++ " ", ?_⟩
          simp [backupCommandQuery, objectClause, h1, hdest, hbdest,
            String.append_assoc]
  · intro h1 h2
    cases bb with
    | none =>
        refine ⟨(if ib then "TO" else "FROM") ++ " " ++ dest ++ " ", ?_⟩
        simp [backupCommandQuery, objectClause, h1, h2, hdest, String.append_assoc]
    | some x =>
        obtain ⟨bdest, hbdest⟩ := getBackupPath_member c t hc x.path
        refine ⟨(if ib then "TO" else "FROM") ++ " " ++ dest ++ " " ++
          "SETTINGS base_backup = " ++ bdest ++ " ", ?_⟩
        simp [backupCommandQuery, objectClause, h1, h2, hdest, hbdest,
          String.append_assoc]
  · intro h1 h2 h3
    cases bb with
    | none =>
        refine ⟨(if ib then "TO" else "FROM") ++ " " ++ dest ++ " ", ?_⟩
        simp [backupCommandQuery, objectClause, h1, h2, h3, hdest,
          String.append_assoc]
    | some x =>
        obtain ⟨bdest, hbdest⟩ := getBackupPath_member c t hc x.path
        refine ⟨(if ib then "TO" else "FROM") ++ " " ++ dest ++ " " ++
          "SETTINGS base_backup = " ++ bdest ++ " ", ?_⟩
        simp [backupCommandQuery, objectClause, h1, h2, h3, hdest, hbdest,
          String.append_assoc]
  · intro h1 h2 h3 h4
    cases bb with
    | none =>
        refine ⟨(if ib then "TO" else "FROM") ++ " " ++ dest ++ " ", ?_⟩
        simp [backupCommandQuery, objectClause, h1, h2, h3, h4, hdest,
          String.append_assoc]
    | some x =>
        obtain ⟨bdest, hbdest⟩ := getBackupPath_member c t hc x.path
        refine ⟨(if ib then "TO" else "FROM") ++ " " ++ dest ++ " " ++
          "SETTINGS base_backup = " ++ bdest ++ " ", ?_⟩
        simp [backupCommandQuery, objectClause, h1, h2, h3, h4, hdest, hbdest,
          String.append_assoc]
  · intro h1 h2 h3 h4 h5
    cases bb with
    | none =>
        refine ⟨(if ib then "TO" else "FROM") ++ " " ++ dest ++ " ", ?_⟩
        simp [backupCommandQuery, objectClause, h1, h2, h3, h4, h5, hdest,
          String.append_assoc]
    | some x =>
        obtain ⟨bdest, hbdest⟩ := getBackupPath_member c t hc x.path
        refine ⟨(if ib then "TO" else "FROM") ++ " " ++ dest ++ " " ++
          "SETTINGS base_backup = " ++ bdest ++ " ", ?_⟩
        simp [backupCommandQuery, objectClause, h1, h2, h3, h4, h5, hdest, hbdest,
          String.append_assoc]
  · intro h1 h2 h3 h4 h5
    cases bb with
    | none =>
        refine ⟨(if ib then "TO" else "FROM") ++ " " ++ dest ++ " ", ?_⟩
        simp [backupCommandQuery, objectClause, h1, h2, h3, h4, h5,
          effectiveIgnored_ne_nil, hdest, String.append_assoc]
    | some x =>
        obtain ⟨bdest, hbdest⟩ := getBackupPath_member c t hc x.path
        refine ⟨(if ib then "TO" else "FROM") ++ " " ++ dest ++ " " ++
          "SETTINGS base_backup = " ++ bdest ++ " ", ?_⟩
        simp [backupCommandQuery, objectClause, h1, h2, h3, h4, h5,
          effectiveIgnored_ne_nil, hdest, hbdest, String.append_assoc]

/-- C2 witness: with both `table` and `dictionary` supplied, the table wins,
no error is raised, and the result equals the table-only call. -/
theorem c2_object_clause_priority_witness :
    backupCommandQuery fileClient
        ⟨⟨"b1"⟩, some "t", some "d", none, none, none, none, none⟩ true =
      backupCommandQuery fileClient
        ⟨⟨"b1"⟩, some "t", none, none, none, none, none, none⟩ true ∧
    ∃ rest, backupCommandQuery fileClient
        ⟨⟨"b1"⟩, some "t", some "d", none, none, none, none, none⟩ true =
      .ok ((if true then "BACKUP " else "RESTORE ") ++
        ("TABLE " ++ (pyStr (some "t") ++ (" " ++ rest)))) :=
  (c2_object_clause_priority fileClient .file rfl
    ⟨⟨"b1"⟩, some "t", some "d", none, none, none, none, none⟩ true).1 rfl

/-- C3: construction validates exactly the parameters required by the
selected target and fails with a configuration (or not-found) error before
any connection is opened (`clientInitConnections = 0`); parameters of
unselected targets are never checked, so construction succeeds for the
selected target whatever their values are. -/
theorem c3_init_validates_before_connect (fs : List String) (h p u pw : String)
    (bd dk ep ak sk : Option String) :
    (bd = none →
      clientInit fs h p u pw (.member .file) bd dk ep ak sk =
        .error (.valueError "backup_dir must be provided when using File backup target") ∧
      clientInitConnections fs h p u pw (.member .file) bd dk ep ak sk = 0) ∧
    (∀ d, bd = some d → d ∉ fs →
      clientInit fs h p u pw (.member .file) bd dk ep ak sk =
        .error (.fileNotFoundError ("backup_dir " ++ d ++ " does not exist!")) ∧
      clientInitConnections fs h p u pw (.member .file) bd dk ep ak sk = 0) ∧
    (truthyStr dk = false →
      clientInit fs h p u pw (.member .disk) bd dk ep ak sk =
        .error (.valueError "disk must be provided when using Disk backup target") ∧
      clientInitConnections fs h p u pw (.member .disk) bd dk ep ak sk = 0) ∧
    ((truthyStr ep = false ∨ truthyStr ak = false ∨ truthyStr sk = false) →
      (∃ m, clientInit fs h p u pw (.member .s3) bd dk ep ak sk =
        .error (.valueError m)) ∧
      clientInitConnections fs h p u pw (.member .s3) bd dk ep ak sk = 0) ∧
    (∀ d, bd = some d → d ∈ fs →
      ∃ cl, clientInit fs h p u pw (.member .file) bd dk ep ak sk = .ok cl) ∧
    (truthyStr dk = true →
      ∃ cl, clientInit fs h p u pw (.member .disk) bd dk ep ak sk = .ok cl) ∧
    (truthyStr ep = true → truthyStr ak = true → truthyStr sk = true →
      ∃ cl, clientInit fs h p u pw (.member .s3) bd dk ep ak sk = .ok cl) := by
  refine ⟨?_, ?_, ?_, ?_, ?_, ?_, ?_⟩
  · rintro rfl
    simp [clientInit, clientInitConnections]
  · rintro d rfl hd
    simp [clientInit, clientInitConnections, hd]
  · intro hdk
    simp [clientInit, clientInitConnections, hdk]
  · intro hor
    cases hep : truthyStr ep with
    | false => simp [clientInit, clientInitConnections, hep]
    | true =>
      cases hak : truthyStr ak with
      | false => simp [clientInit, clientInitConnections, hep, hak]
      | true =>
        cases hsk : truthyStr sk with
        | false => simp [clientInit, clientInitConnections, hep, hak, hsk]
        | true => simp [hep, hak, hsk] at hor
  · rintro d rfl hd
    simp [clientInit, hd]
  · intro hdk
    simp [clientInit, hdk]
  · intro hep hak hsk
    simp [clientInit, hep, hak, hsk]

/-- C3 witness: a File-target construction with no backup directory fails
with the configuration error and opens no connection. -/
theorem c3_init_validates_before_connect_witness :
    clientInit [] "localhost" "9000" "default" "" (.member .file)
        none none none none none =
      .error (.valueError "backup_dir must be provided when using File backup target") ∧
    clientInitConnections [] "localhost" "9000" "default" "" (.member .file)
        none none none none none = 0 :=
  (c3_init_validates_before_connect [] "localhost" "9000" "default" ""
    none none none none none).1 rfl

/-- C4: the destination clause is exactly `File(...)`, `Disk(...)` or
`S3(...)` with the configured values and the relative path interpolated
directly (`\x27` is the single-quote character; no escaping happens). -/
theorem c4_destination_clause_format (c : Client) (pth d dk ep ak sk : String) :
    (c.backup_target = .member .file → c.backup_dir = some d →
      getBackupPath c pth = .ok ("File(\x27" ++ d ++ "/" ++ pth ++ "\x27)")) ∧
    (c.backup_target = .member .disk → c.disk = some dk →
      getBackupPath c pth = .ok ("Disk(\x27" ++ dk ++ "\x27, \x27" ++ pth ++ "\x27)")) ∧
    (c.backup_target = .member .s3 → c.s3_endpoint = some ep →
      c.s3_access_key_id = some ak → c.s3_secret_access_key = some sk →
      getBackupPath c pth =
        .ok ("S3(\x27" ++ ep ++ "/" ++ pth ++ "\x27, \x27" ++ ak ++ "\x27, \x27" ++
          sk ++ "\x27)")) := by
  refine ⟨?_, ?_, ?_⟩
  · intro h1 h2
    simp [getBackupPath, pyStr, h1, h2]
  · intro h1 h2
    simp [getBackupPath, pyStr, h1, h2]
  · intro h1 h2 h3 h4
    simp [getBackupPath, pyStr, h1, h2, h3, h4]

/-- C4 witness: the three destination clauses at the concrete configurations
of the spec: directory `/backups`, disk `backup_disk`, endpoint
`https://s3.example.com/bucket` with keys `AK`/`SK`, path `2024`. -/
theorem c4_destination_clause_format_witness :
    getBackupPath fileClient "2024" = .ok "File(\x27/backups/2024\x27)" ∧
    getBackupPath diskClient "2024" = .ok "Disk(\x27backup_disk\x27, \x272024\x27)" ∧
    getBackupPath s3Client "2024" =
      .ok "S3(\x27https://s3.example.com/bucket/2024\x27, \x27AK\x27, \x27SK\x27)" :=
  by
  refine ⟨?_, ?_, ?_⟩
  · have hw := (c4_destination_clause_format fileClient "2024" "/backups" "" "" "" "").1
      rfl rfl
    simpa using hw
  · have hw := (c4_destination_clause_format diskClient "2024" "" "backup_disk" "" ""
      "").2.1 rfl rfl
    simpa using hw
  · have hw := (c4_destination_clause_format s3Client "2024" "" ""
      "https://s3.example.com/bucket" "AK" "SK").2.2 rfl rfl rfl rfl
    simpa using hw

/-- C5: a backup call with no single-object parameter and no ignored list
supplied defaults the ignored list to system, INFORMATION_SCHEMA,
information_schema, and the statement begins
`BACKUP ALL EXCEPT DATABASES system, INFORMATION_SCHEMA, information_schema TO`
followed by the destination clause of the backup's path. -/
theorem c5_default_ignored_all_except (c : Client) (t : BackupTarget)
    (hc : c.backup_target = .member t) (b : Backup) (bb : Option FullBackup) :
    ∃ dest rest, getBackupPath c b.path = .ok dest ∧
      backupCommandQuery c ⟨b, none, none, none, none, none, none, bb⟩ true =
        .ok ("BACKUP ALL EXCEPT DATABASES system, INFORMATION_SCHEMA, information_schema TO " ++
          dest ++ rest) := by
  obtain ⟨dest, hdest⟩ := getBackupPath_member c t hc b.path
  have hJ : String.intercalate ", " ["system", "INFORMATION_SCHEMA", "information_schema"] =
      "system, INFORMATION_SCHEMA, information_schema" := rfl
  cases bb with
  | none =>
      refine ⟨dest, " ", hdest, ?_⟩
      simp [backupCommandQuery, objectClause, truthyStr, effectiveIgnored, hdest, hJ,
        String.append_assoc]
  | some x =>
      obtain ⟨bdest, hbdest⟩ := getBackupPath_member c t hc x.path
      refine ⟨dest, " SETTINGS base_backup = " ++ bdest ++ " ", hdest, ?_⟩
      simp [backupCommandQuery, objectClause, truthyStr, effectiveIgnored, hdest, hbdest,
        hJ, String.append_assoc]

/-- C5 witness: the concrete all-except backup statement on the File-target
client. -/
theorem c5_default_ignored_all_except_witness :
    ∃ dest rest, getBackupPath fileClient "b1" = .ok dest ∧
      backupCommandQuery fileClient ⟨⟨"b1"⟩, none, none, none, none, none, none, none⟩ true =
        .ok ("BACKUP ALL EXCEPT DATABASES system, INFORMATION_SCHEMA, information_schema TO " ++
          dest ++ rest) :=
  c5_default_ignored_all_except fileClient .file rfl ⟨"b1"⟩ none

/-- C6: a backup call with `database` given, neither `table` nor `dictionary`
given, and no base backup produces exactly
`BACKUP DATABASE <database> TO <destination clause> ` with no
`SETTINGS base_backup` suffix appended. -/
theorem c6_database_without_base (c : Client) (t : BackupTarget)
    (hc : c.backup_target = .member t) (b : Backup) (db : String) (hdb : db ≠ "")
    (tt vw : Option String) (ign : Option (List String)) :
    ∃ dest, getBackupPath c b.path = .ok dest ∧
      backupCommandQuery c ⟨b, none, none, some db, tt, vw, ign, none⟩ true =
        .ok ("BACKUP DATABASE " ++ db ++ " TO " ++ dest ++ " ") := by
  obtain ⟨dest, hdest⟩ := getBackupPath_member c t hc b.path
  refine ⟨dest, hdest, ?_⟩
  simp [backupCommandQuery, objectClause, truthyStr, pyStr, hdb, hdest,
    String.append_assoc]
  rw [append_lit "BACKUP " "DATABASE " "BACKUP DATABASE " rfl]

/-- C6 witness: the concrete database backup statement on the File-target
client. -/
theorem c6_database_without_base_witness :
    ∃ dest, getBackupPath fileClient "b1" = .ok dest ∧
      backupCommandQuery fileClient ⟨⟨"b1"⟩, none, none, some "mydb", none, none, none, none⟩ true =
        .ok ("BACKUP DATABASE " ++ "mydb" ++ " TO " ++ dest ++ " ") :=
  c6_database_without_base fileClient .file rfl ⟨"b1"⟩ "mydb" (by decide) none none none

/-- C7: a restore call with `table` given and a base backup supplied produces
exactly `RESTORE TABLE <table> FROM <destination clause> SETTINGS
base_backup = <destination clause of the base backup's path> `, both clauses
built by `_get_backup_path`. -/
theorem c7_restore_table_with_base (c : Client) (t : BackupTarget)
    (hc : c.backup_target = .member t) (b bb : Backup) (tbl : String)
    (htbl : tbl ≠ "") :
    ∃ dest bdest, getBackupPath c b.path = .ok dest ∧
      getBackupPath c bb.path = .ok bdest ∧
      backupCommandQuery c ⟨b, some tbl, none, none, none, none, none, some bb⟩ false =
        .ok ("RESTORE TABLE " ++ tbl ++ " FROM " ++ dest ++
          " SETTINGS base_backup = " ++ bdest ++ " ") := by
  obtain ⟨dest, hdest⟩ := getBackupPath_member c t hc b.path
  obtain ⟨bdest, hbdest⟩ := getBackupPath_member c t hc bb.path
  refine ⟨dest, bdest, hdest, hbdest, ?_⟩
  simp [backupCommandQuery, objectClause, truthyStr, pyStr, htbl, hdest, hbdest,
    String.append_assoc]
  rw [append_lit "RESTORE " "TABLE " "RESTORE TABLE " rfl]

/-- C7 witness: the concrete table restore statement with a base backup on
the File-target client. -/
theorem c7_restore_table_with_base_witness :
    ∃ dest bdest, getBackupPath fileClient "b1" = .ok dest ∧
      getBackupPath fileClient "full" = .ok bdest ∧
      backupCommandQuery fileClient
          ⟨⟨"b1"⟩, some "t", none, none, none, none, none, some ⟨"full"⟩⟩ false =
        .ok ("RESTORE TABLE " ++ "t" ++ " FROM " ++ dest ++
          " SETTINGS base_backup = " ++ bdest ++ " ") :=
  c7_restore_table_with_base fileClient .file rfl ⟨"b1"⟩ ⟨"full"⟩ "t" (by decide)

/-- C8: with a stored backup-target value outside the enum, building a
destination clause fails with the invalid-configuration error, and every
backup/restore call on such a client submits no statement at all. -/
theorem c8_invalid_target_no_statement (c : Client) (r : String)
    (hc : c.backup_target = .other r) (p : String) (args : BackupArgs) (ib : Bool) :
    getBackupPath c p = .error (.valueError ("Invalid backup target: " ++ r)) ∧
    backupCommandSubmitted c args ib = [] := by
  constructor
  · simp [getBackupPath, hc]
  · obtain ⟨b, tbl, dic, db, tt, vw, ign, bb⟩ := args
    cases hob : objectClause tbl dic db tt vw (effectiveIgnored ign) with
    | error e => simp [backupCommandSubmitted, backupCommandQuery, hob]
    | ok cl => simp [backupCommandSubmitted, backupCommandQuery, hob, getBackupPath, hc]

/-- C8 witness: concrete invalid-target client: the destination-clause error
and the empty submission list. -/
theorem c8_invalid_target_no_statement_witness :
    getBackupPath badTargetClient "x" =
      .error (.valueError ("Invalid backup target: " ++ "None")) ∧
    backupCommandSubmitted badTargetClient
      ⟨⟨"b1"⟩, none, none, none, none, none, none, none⟩ true = [] :=
  c8_invalid_target_no_statement badTargetClient "None" rfl "x"
    ⟨⟨"b1"⟩, none, none, none, none, none, none, none⟩ true

/-- C9: the status read submits the one fixed query over the system
backup-status table and returns exactly what the session yields, unmodified. -/
theorem c9_status_passthrough (Row : Type) (execute : String → Row) :
    get_backup_status execute = execute "SELECT * FROM `system`.backups" := rfl

/-- C9 witness: a stub session returning a fixed row set passes through
unmodified. -/
theorem c9_status_passthrough_witness :
    get_backup_status (fun _ => ([["r1"], ["r2"]] : List (List String))) =
      [["r1"], ["r2"]] :=
  c9_status_passthrough (List (List String)) (fun _ => [["r1"], ["r2"]])

/-- C10: on the same argument tuple, when both succeed, the backup and
restore statements differ exactly in `BACKUP `/`RESTORE ` at the start and
`TO`/`FROM` before the destination clause: they share the object-clause
segment `mid` and the trailing segment `tail`. -/
theorem c10_backup_restore_differ_only_in_keywords (c : Client) (args : BackupArgs)
    (qb qr : String)
    (hb : backupCommandQuery c args true = .ok qb)
    (hr : backupCommandQuery c args false = .ok qr) :
    ∃ mid tail, qb = "BACKUP " ++ mid ++ "TO " ++ tail ∧
      qr = "RESTORE " ++ mid ++ "FROM " ++ tail := by
  obtain ⟨b, tbl, dic, db, tt, vw, ign, bb⟩ := args
  cases hob : objectClause tbl dic db tt vw (effectiveIgnored ign) with
  | error e => simp [backupCommandQuery, hob] at hb
  | ok cl =>
    cases hgp : getBackupPath c b.path with
    | error e => simp [backupCommandQuery, hob, hgp] at hb
    | ok dest =>
      cases bb with
      | none =>
          simp [backupCommandQuery, hob, hgp] at hb hr
          refine ⟨cl, dest ++ " ", ?_, ?_⟩
          · rw [← hb]
            simp [String.append_assoc]
          · rw [← hr]
            simp [String.append_assoc]
      | some x =>
          cases hgb : getBackupPath c x.path with
          | error e => simp [backupCommandQuery, hob, hgp, hgb] at hb
          | ok bdest =>
              simp [backupCommandQuery, hob, hgp, hgb] at hb hr
              refine ⟨cl, dest ++ " SETTINGS base_backup = " ++ bdest ++ " ", ?_, ?_⟩
              · rw [← hb]
                simp [String.append_assoc]
              · rw [← hr]
                simp [String.append_assoc]

/-- C10 witness: the concrete backup and restore statement pair for a
database operation on the File-target client. -/
theorem c10_backup_restore_differ_only_in_keywords_witness :
    ∃ mid tail,
      "BACKUP DATABASE mydb TO File(\x27/backups/b1\x27) " =
        "BACKUP " ++ mid ++ "TO " ++ tail ∧
      "RESTORE DATABASE mydb FROM File(\x27/backups/b1\x27) " =
        "RESTORE " ++ mid ++ "FROM " ++ tail :=
  c10_backup_restore_differ_only_in_keywords fileClient
    ⟨⟨"b1"⟩, none, none, some "mydb", none, none, none, none⟩
    "BACKUP DATABASE mydb TO File(\x27/backups/b1\x27) "
    "RESTORE DATABASE mydb FROM File(\x27/backups/b1\x27) " rfl rfl

end ClickHouseBackup
